import Mathlib

/-!
Verification development for the FlexiPay Telegram payments bot
(`config.py`, `database.py`, `main.py`, `adm.py`, `pay.py`,
`webhook_server.py`).

Monetary amounts are modelled as exact rationals (`ℚ`); Python's
`round(x, 2)` is modelled as round-half-to-even at two decimal places
(`round2` below).  Timestamps (`created_at` / `updated_at`) carry no
ledger information and are not modelled.

The database driver is modelled as follows.  The committed store is a
`DB` value.  A connection (`Conn`) carries the committed store as of the
connection's last commit together with the connection's own uncommitted
view (`pending`), and a `closed` flag.  `commit` publishes `pending`;
`rollback` discards it; any cursor operation on a closed connection
raises (psycopg2 `InterfaceError`, a subclass of `psycopg2.Error`), and
`rollback` on a closed connection raises as well.

A central control-flow fact used throughout: `record_transaction` and
`update_transaction_status` in `database.py` begin with
`conn = kwargs.pop('conn_ext', None) or get_db_connection()`.
`kwargs.pop` removes the key, so the later guards
`if 'conn_ext' not in kwargs: conn.commit()` and
`if 'conn_ext' not in kwargs and conn: conn.close()` are always taken:
these functions commit and close the connection they were handed even
when the caller passed `conn_ext` to make them part of a larger atomic
group.  `update_balance` takes `conn_ext` as a named parameter, so it
alone honours the shared connection.
-/

namespace FlexiPay

/-! ## config.py (financial parameters and status strings) -/

/-- config.py line 49: `TAXA_DEPOSITO_PERCENTUAL = 0.11`. -/
def TAXA_DEPOSITO_PERCENTUAL : ℚ := 11/100

/-- config.py line 52: `TAXA_SAQUE_PERCENTUAL = 0.025`. -/
def TAXA_SAQUE_PERCENTUAL : ℚ := 25/1000

/-- config.py line 55: `TAXA_SAQUE_FIXA = 3.50`. -/
def TAXA_SAQUE_FIXA : ℚ := 35/10

/-- config.py line 58. -/
def LIMITE_MINIMO_DEPOSITO : ℚ := 75/10

/-- config.py line 59. -/
def LIMITE_MAXIMO_DEPOSITO : ℚ := 1000

/-- config.py line 65. -/
def STATUS_EM_ANALISE : String := "EM ANÁLISE"

/-- config.py line 66. -/
def STATUS_EM_ANDAMENTO : String := "EM ANDAMENTO"

/-- config.py line 67. -/
def STATUS_CONCLUIDO : String := "CONCLUÍDO"

/-- config.py line 68. -/
def STATUS_RECUSADO : String := "RECUSADO"

/-- config.py line 69. -/
def STATUS_FALHA_PAGAMENTO : String := "FALHA NO PAGAMENTO"

/-- config.py line 70. -/
def STATUS_DEPOSITO_PENDENTE : String := "AGUARDANDO PAGAMENTO"

/-- config.py line 71. -/
def STATUS_DEPOSITO_PAGO : String := "PAGO"

/-! ## Python `round(x, 2)` -/

/-- Floor of a rational: `Int.fdiv` of numerator by (positive) denominator
is floor division. -/
def ratFloor (x : ℚ) : ℤ := x.num.fdiv (x.den : ℤ)

/-- Round a rational to the nearest integer, ties to even
(Python 3 `round` on exact decimal values). -/
def roundHalfEven (x : ℚ) : ℤ :=
  let n := ratFloor x
  let f := x - (n : ℚ)
  if f < 1/2 then n
  else if 1/2 < f then n + 1
  else if n % 2 = 0 then n else n + 1

/-- Python `round(x, 2)`: round to two decimal places, ties to even. -/
def round2 (q : ℚ) : ℚ := (roundHalfEven (q * 100) : ℚ) / 100

/-! ## Data model (database.py `init_db`, lines 28-61)

`users(telegram_id, balance)` and
`transactions(id, user_telegram_id, type, amount, status, pix_key,
mercado_pago_id, admin_notes)`; usernames and timestamps carry no ledger
information and are omitted. -/

/-- One row of the `transactions` table. -/
structure Txn where
  id : Nat
  user_telegram_id : Int
  type : String
  amount : ℚ
  status : String
  pix_key : Option String
  mercado_pago_id : Option String
  admin_notes : Option String
deriving Repr, DecidableEq

/-- The committed database: the `users` table (telegram_id, balance),
the `transactions` table, and the next value of the `SERIAL` id. -/
structure DB where
  users : List (Int × ℚ)
  txns : List Txn
  nextId : Nat
deriving Repr, DecidableEq

/-- A live connection: committed store at last commit, this connection's
uncommitted view, and whether the connection has been closed. -/
structure Conn where
  committed : DB
  pending : DB
  closed : Bool
deriving Repr, DecidableEq

/-! ## database.py primitive operations -/

/-- `SELECT balance FROM users WHERE telegram_id = u` (first row, users
are keyed by primary key). -/
def lookupBalance (users : List (Int × ℚ)) (u : Int) : Option ℚ :=
  (users.find? (fun p => p.1 == u)).map (fun p => p.2)

/-- database.py lines 116-126 `get_balance`: returns the stored balance,
or `0.00` when the user row does not exist. -/
def get_balance (db : DB) (u : Int) : ℚ :=
  (lookupBalance db.users u).getD 0

/-- `UPDATE users SET balance = nb WHERE telegram_id = u`: rewrites every
matching row, touches nothing else, and in particular creates no row when
none matches. -/
def setUserBalance (users : List (Int × ℚ)) (u : Int) (nb : ℚ) : List (Int × ℚ) :=
  users.map (fun p => if p.1 == u then (p.1, nb) else p)

/-- database.py lines 128-149 `update_balance`, core read-check-write:
read the current balance (`0.0` when the row is missing, line 135), add
`delta`, refuse with `False` and no mutation when the result would be
negative (lines 137-139), otherwise write the new balance and return
`True` (lines 140-143).  Note the `UPDATE` matches no row for an unknown
user, yet the function still returns `True`. -/
def update_balance_core (db : DB) (u : Int) (delta : ℚ) : Bool × DB :=
  if (lookupBalance db.users u).getD 0 + delta < 0 then (false, db)
  else (true, { db with users := setUserBalance db.users u ((lookupBalance db.users u).getD 0 + delta) })

/-- `update_balance` called without `conn_ext`: opens its own connection,
runs the core logic, commits on success and rolls back on error; the net
effect on the committed store is exactly the core result. -/
def update_balance (db : DB) (u : Int) (delta : ℚ) : Bool × DB :=
  update_balance_core db u delta

/-- `update_balance` called with `conn_ext` (database.py line 128,
`conn_ext` is a real named parameter here, so the shared connection is
honoured): works on the connection's uncommitted view and neither commits
nor closes.  On a closed connection the cursor raises, the
`except psycopg2.Error` branch catches it, and since `conn_ext is not
None` there is no rollback: the function just returns `False`
(lines 144-147). -/
def update_balance_ext (c : Conn) (u : Int) (delta : ℚ) : Bool × Conn :=
  if c.closed then (false, c)
  else
    let r := update_balance_core c.pending u delta
    (r.1, { c with pending := r.2 })

/-- `INSERT INTO transactions ... RETURNING id` (database.py
lines 158-163): append the new row with the next serial id. -/
def insertTxn (db : DB) (mk : Nat → Txn) : Nat × DB :=
  (db.nextId, { db with txns := db.txns ++ [mk db.nextId], nextId := db.nextId + 1 })

/-- database.py lines 151-172 `record_transaction` called without
`conn_ext`: inserts on its own connection and commits. -/
def record_transaction (db : DB) (mk : Nat → Txn) : Nat × DB :=
  insertTxn db mk

/-- `record_transaction` called with `conn_ext`: because
`kwargs.pop('conn_ext', ...)` removed the key, the function COMMITS the
shared connection (line 164) and CLOSES it (line 172) after the insert.
On an already-closed connection the cursor raises `psycopg2.Error`
(line 167); the except-branch then calls `conn.rollback()` on the closed
connection, which raises again, so the exception propagates to the
caller: modelled as result `none` with the connection unchanged. -/
def record_transaction_ext (c : Conn) (mk : Nat → Txn) : Option Nat × Conn :=
  if c.closed then (none, c)
  else
    let r := insertTxn c.pending mk
    (some r.1, { committed := r.2, pending := r.2, closed := true })

/-- The per-row effect of database.py lines 174-189: set `status`, and
set `mercado_pago_id` / `admin_notes` only when the corresponding
optional field (`mp_id` / `admin_notes` kwarg) was supplied. -/
def applyStatus (st : String) (mp notes : Option String) (t : Txn) : Txn :=
  { t with
    status := st
    mercado_pago_id := match mp with | some m => some m | none => t.mercado_pago_id
    admin_notes := match notes with | some n => some n | none => t.admin_notes }

/-- The effect of the `UPDATE ... WHERE id = tid` on one row: apply the
field changes when the id matches, leave the row alone otherwise. -/
def updRow (tid : Nat) (st : String) (mp notes : Option String) (t : Txn) : Txn :=
  if t.id == tid then applyStatus st mp notes t else t

/-- `UPDATE transactions SET ... WHERE id = tid`: rewrites every matching
row; matches nothing (and reports nothing) for an unknown id. -/
def update_transaction_status_core (db : DB) (tid : Nat) (st : String)
    (mp notes : Option String) : DB :=
  { db with txns := db.txns.map (updRow tid st mp notes) }

/-- database.py lines 174-198 `update_transaction_status` called without
`conn_ext`: updates on its own connection, commits, and returns `True`
(line 192) — the rowcount is never inspected, so the call also returns
`True` when no transaction with that id exists. -/
def update_transaction_status (db : DB) (tid : Nat) (st : String)
    (mp notes : Option String) : Bool × DB :=
  (true, update_transaction_status_core db tid st mp notes)

/-- `update_transaction_status` called with `conn_ext`: same
`kwargs.pop` slip as `record_transaction`, so it commits and closes the
shared connection; on an already-closed connection the cursor raises,
the except-branch's rollback raises again, and the exception propagates
(`none`). -/
def update_transaction_status_ext (c : Conn) (tid : Nat) (st : String)
    (mp notes : Option String) : Option Bool × Conn :=
  if c.closed then (none, c)
  else
    let p := update_transaction_status_core c.pending tid st mp notes
    (some true, { committed := p, pending := p, closed := true })

/-- database.py lines 200-209 `get_transaction_details`:
`SELECT * FROM transactions WHERE id = tid` (first row). -/
def get_transaction_details (db : DB) (tid : Nat) : Option Txn :=
  db.txns.find? (fun t => t.id == tid)

/-- The status of transaction `tid`, when it exists. -/
def statusOf (db : DB) (tid : Nat) : Option String :=
  (get_transaction_details db tid).map (fun t => t.status)

/-- main.py line 263 / database.py line 240: the note linking a FEE row
to its withdrawal, `f"Taxa referente ao saque ID {id}"`. -/
def feeNote (wid : Nat) : String := "Taxa referente ao saque ID " ++ toString wid

/-- database.py lines 235-246 `get_fee_for_withdrawal`: amount of the
FEE transaction whose note references the withdrawal id, else `0.00`. -/
def get_fee_for_withdrawal (db : DB) (wid : Nat) : ℚ :=
  match db.txns.find? (fun t => t.type == "FEE" && t.admin_notes == some (feeNote wid)) with
  | some t => t.amount
  | none => 0

/-- database.py lines 97-114 `create_user_if_not_exists`:
`INSERT ... ON CONFLICT (telegram_id) DO NOTHING` with balance `0.00`. -/
def create_user_if_not_exists (db : DB) (u : Int) : DB :=
  if db.users.any (fun p => p.1 == u) then db
  else { db with users := db.users ++ [(u, 0)] }

/-- database.py lines 63-84 `admin_set_balance`: `UPDATE users SET
balance = nb WHERE telegram_id = u`; when a row matched
(`cursor.rowcount > 0`) it records an `AJUSTE_MANUAL` transaction (via
`record_transaction` on that function's own connection) and commits,
returning `True`; otherwise returns `False` with no effect.  The free
text of the admin note (it interpolates the amount) is elided. -/
def admin_set_balance (db : DB) (u : Int) (nb : ℚ) : Bool × DB :=
  if db.users.any (fun p => p.1 == u) then
    let db1 := { db with users := setUserBalance db.users u nb }
    let r := record_transaction db1 (fun tid =>
      ⟨tid, u, "AJUSTE_MANUAL", nb, STATUS_CONCLUIDO, none, none,
        some "Saldo definido por um admin."⟩)
    (true, r.2)
  else (false, db)

/-! ## main.py `/sacar` (handle_saque, lines 218-284) -/

/-- Outcome reported to the user by `handle_saque`. -/
inductive SaqueResult where
  /-- `valor_total_debito <= TAXA_SAQUE_FIXA` (line 235). -/
  | feeTooLow
  /-- derived `valor_a_receber <= 0` (line 241). -/
  | invalidAmount
  /-- `saldo_atual < valor_total_debito` (line 248). -/
  | insufficient
  /-- the full atomic group committed and the success reply was sent
  (line 267) — see `handle_saque` for why this is unreachable. -/
  | ok (wid : Nat)
  /-- an exception escaped to a handler (lines 274-277 or 282-284). -/
  | genericError
deriving Repr, DecidableEq

/-- main.py lines 218-284 `handle_saque`, after argument parsing, with
`total` the parsed `valor_total_debito` and `chave` the PIX key.

Control flow on the "atomic" block (lines 252-279): one connection is
opened and `BEGIN` issued; `update_balance(..., conn_ext=conn)` debits
the pending view without committing; the first
`record_transaction(conn_ext=conn, type="WITHDRAWAL", ...)` inserts the
withdrawal row and then — because of the `kwargs.pop('conn_ext')` slip —
COMMITS the shared connection (debit + withdrawal row become durable)
and CLOSES it.  The second `record_transaction(conn_ext=conn,
type="FEE", ...)` then operates on a closed connection: its cursor
raises, its internal rollback raises again, and the exception reaches
the handler at line 274, whose own `conn.rollback()` on the closed
connection raises once more, landing in the outer handler (line 282).
The committed debit and withdrawal row survive; no FEE row exists. -/
def handle_saque (db : DB) (u : Int) (chave : String) (total : ℚ) : DB × SaqueResult :=
  let db0 := create_user_if_not_exists db u
  if total ≤ TAXA_SAQUE_FIXA then (db0, .feeTooLow)
  else
    let valor_a_receber := round2 ((total - TAXA_SAQUE_FIXA) / (1 + TAXA_SAQUE_PERCENTUAL))
    if valor_a_receber ≤ 0 then (db0, .invalidAmount)
    else
      let taxa_final := round2 (total - valor_a_receber)
      if get_balance db0 u < total then (db0, .insufficient)
      else
        let c0 : Conn := ⟨db0, db0, false⟩
        -- line 255: the Boolean result of update_balance is not inspected
        let c1 := (update_balance_ext c0 u (-total)).2
        let r2 := record_transaction_ext c1 (fun tid =>
          ⟨tid, u, "WITHDRAWAL", valor_a_receber, STATUS_EM_ANALISE, some chave, none, none⟩)
        match r2.1 with
        | none => (r2.2.committed, .genericError)
        | some wid =>
          let r3 := record_transaction_ext r2.2 (fun tid =>
            ⟨tid, u, "FEE", taxa_final, STATUS_CONCLUIDO, none, none, some (feeNote wid)⟩)
          match r3.1 with
          | none => (r3.2.committed, .genericError)
          | some _ =>
            -- line 265 `conn.commit()`: raises on a closed connection
            if r3.2.closed then (r3.2.committed, .genericError)
            else (r3.2.pending, .ok wid)

/-! ## main.py `/pix` (handle_pix_deposit, lines 137-216) -/

/-- Outcome of a deposit request. -/
inductive DepositResult where
  /-- value outside `[LIMITE_MINIMO_DEPOSITO, LIMITE_MAXIMO_DEPOSITO]`
  (line 165). -/
  | outOfLimits
  /-- the gateway refused to create the charge (line 176): no
  transaction is recorded. -/
  | gatewayError
  /-- charge created and DEPOSIT transaction recorded pending
  (lines 181-185). -/
  | created (tid : Nat)
deriving Repr, DecidableEq

/-- main.py lines 137-216 `handle_pix_deposit`, after parsing, with the
gateway call abstracted to its outcome: `pix_ok` says whether
`pay.generate_pix_payment` succeeded and `mp_payment_id` is the
`payment_id` it returned.  On success the DEPOSIT transaction is
recorded with status `AGUARDANDO PAGAMENTO` on `record_transaction`'s
own connection (no `conn_ext`), which commits correctly. -/
def handle_pix_deposit (db : DB) (u : Int) (valor : ℚ) (pix_ok : Bool)
    (mp_payment_id : String) : DB × DepositResult :=
  if valor < LIMITE_MINIMO_DEPOSITO ∨ LIMITE_MAXIMO_DEPOSITO < valor then (db, .outOfLimits)
  else if ¬ pix_ok then (db, .gatewayError)
  else
    let r := record_transaction db (fun tid =>
      ⟨tid, u, "DEPOSIT", valor, STATUS_DEPOSITO_PENDENTE, none, some mp_payment_id, none⟩)
    (r.2, .created r.1)

/-! ## webhook_server.py `/webhook/mp` (mercadopago_webhook, lines 15-110) -/

/-- HTTP-level outcome of the webhook.  Constructors record which exit
of `mercadopago_webhook` was taken. -/
inductive WebhookResult where
  /-- no pending transaction for this external reference (lines 49-51):
  "already processed or not found", HTTP 200. -/
  | alreadyProcessed
  /-- confirmed amount differs from the recorded amount (lines 59-62):
  flagged `ERRO_DIVERGENCIA`, HTTP 400. -/
  | amountMismatch
  /-- an exception escaped the crediting block or the handler
  (lines 93-97 / 106-108): HTTP 500 or a swallowed critical error. -/
  | internalError
  /-- full success path including marking the deposit `PAGO` —
  unreachable, see `mercadopago_webhook`. -/
  | okPaid
  /-- gateway status other than "approved" (lines 99-102): deposit
  moved to the upper-cased gateway status, HTTP 200. -/
  | notApproved
deriving Repr, DecidableEq

/-- webhook_server.py lines 15-110 `mercadopago_webhook`, after the
notification-shape guards, with the gateway lookup abstracted to its
result: `status_mp` and `valor_pago` are the status and
`transaction_amount` that `pay.get_payment_details` returned for
`mp_id_str`.

On the approved-and-matching path (lines 64-97) the code opens one
connection for the "atomic" group: `update_balance(..., conn_ext=...)`
credits the net amount on the pending view; `record_transaction(...,
conn_ext=...)` inserts the FEE row, then COMMITS the shared connection
(credit + FEE become durable) and CLOSES it (the `kwargs.pop` slip);
`update_transaction_status(..., conn_ext=...)` then hits the closed
connection and raises, so the deposit is never marked `PAGO` and the
request fails — while the credit and fee row stay committed. -/
def mercadopago_webhook (db : DB) (mp_id_str : String) (status_mp : String)
    (valor_pago : ℚ) : DB × WebhookResult :=
  match db.txns.find? (fun t => t.mercado_pago_id == some mp_id_str
      && t.status == STATUS_DEPOSITO_PENDENTE) with
  | none => (db, .alreadyProcessed)
  | some transaction =>
    if status_mp = "approved" then
      if ¬ valor_pago = transaction.amount then
        -- numeric free text of the admin note elided
        ((update_transaction_status db transaction.id "ERRO_DIVERGENCIA"
            none (some "Valor esperado difere do valor pago.")).2, .amountMismatch)
      else
        let taxa_deposito := transaction.amount * TAXA_DEPOSITO_PERCENTUAL
        let valor_liquido := transaction.amount - taxa_deposito
        let c0 : Conn := ⟨db, db, false⟩
        let c1 := (update_balance_ext c0 transaction.user_telegram_id valor_liquido).2
        let r2 := record_transaction_ext c1 (fun tid =>
          ⟨tid, transaction.user_telegram_id, "FEE", taxa_deposito, STATUS_CONCLUIDO,
            none, none, some ("Taxa de depósito referente à transação ID " ++ toString transaction.id)⟩)
        match r2.1 with
        | none => (r2.2.committed, .internalError)
        | some _ =>
          let r3 := update_transaction_status_ext r2.2 transaction.id STATUS_DEPOSITO_PAGO none none
          match r3.1 with
          | none => (r3.2.committed, .internalError)
          | some _ =>
            -- line 87 `conn_atomic.commit()`: update_transaction_status_ext
            -- closed the connection, so this raises and lands at line 93
            if r3.2.closed then (r3.2.committed, .internalError)
            else (r3.2.pending, .okPaid)
    else
      ((update_transaction_status db transaction.id status_mp.toUpper none none).2, .notApproved)

/-! ## adm.py admin withdrawal decision (handle_admin_withdrawal_action,
lines 164-236) and balance override (process_new_balance, lines 132-159) -/

/-- The admin's choice encoded in the callback data. -/
inductive AdminAction where
  | approve
  | reject
deriving Repr, DecidableEq

/-- Outcome of `handle_admin_withdrawal_action`. -/
inductive AdminResult where
  /-- guard at lines 180-184: transaction missing or not `EM ANÁLISE` —
  "já foi tratada por outro administrador ou não é mais válida". -/
  | alreadyProcessed
  /-- approve, payout succeeded (lines 202-207): `CONCLUÍDO`. -/
  | approvedPaid
  /-- approve, payout failed, refund credited (lines 208-217):
  `FALHA NO PAGAMENTO`. -/
  | paymentFailedRefunded
  /-- approve, payout failed AND refund failed (lines 218-220):
  critical manual-intervention alert. -/
  | paymentFailedRefundCritical
  /-- reject, refund credited (lines 228-233): `RECUSADO`. -/
  | rejectedRefunded
  /-- reject, refund failed (lines 234-236): critical alert, the
  transaction is NOT moved out of `EM ANÁLISE`. -/
  | rejectRefundCritical
deriving Repr, DecidableEq

/-- adm.py lines 164-236 `handle_admin_withdrawal_action`, with the
payout gateway call abstracted to its outcome: `payoutSuccess` /
`payout_id` are the fields of the dict `pay.process_payout` returned
(as written, `pay.process_payout` always reports success — in
development mode it short-circuits to a simulated success and in the
"production" branch the response is a hard-coded simulated 201 — but
adm.py consumes an arbitrary success flag, modelled here as a
parameter).  All `update_balance` / `update_transaction_status` /
`record_transaction` calls in this handler pass no `conn_ext`, so each
commits on its own connection. -/
def handle_admin_withdrawal_action (db : DB) (admin_id : Int) (tid : Nat)
    (act : AdminAction) (payoutSuccess : Bool) (payout_id : String) : DB × AdminResult :=
  match get_transaction_details db tid with
  | none => (db, .alreadyProcessed)
  | some transaction =>
    if ¬ transaction.status = STATUS_EM_ANALISE then (db, .alreadyProcessed)
    else
      match act with
      | .approve =>
        let db1 := (update_transaction_status db tid STATUS_EM_ANDAMENTO none none).2
        if payoutSuccess then
          ((update_transaction_status db1 tid STATUS_CONCLUIDO (some payout_id) none).2,
            .approvedPaid)
        else
          let db2 := (update_transaction_status db1 tid STATUS_FALHA_PAGAMENTO none
            (some ("Admin " ++ toString admin_id ++ " tentou aprovar. Gateway: falha."))).2
          let fee_amount := get_fee_for_withdrawal db2 tid
          let r := update_balance db2 transaction.user_telegram_id
            (transaction.amount + fee_amount)
          if r.1 then (r.2, .paymentFailedRefunded)
          else (r.2, .paymentFailedRefundCritical)
      | .reject =>
        let fee_amount := get_fee_for_withdrawal db tid
        let r := update_balance db transaction.user_telegram_id
          (transaction.amount + fee_amount)
        if r.1 then
          ((update_transaction_status r.2 tid STATUS_RECUSADO none
            (some ("Rejeitado pelo administrador " ++ toString admin_id ++ "."))).2,
            .rejectedRefunded)
        else (r.2, .rejectRefundCritical)

/-- Outcome of the admin `setsaldo` flow. -/
inductive SetSaldoResult where
  /-- negative amount refused before touching the store (adm.py
  lines 140-142). -/
  | invalidNegative
  /-- `admin_set_balance` returned `True` (line 149). -/
  | ok
  /-- `admin_set_balance` returned `False` (line 157). -/
  | dbError
deriving Repr, DecidableEq

/-- adm.py lines 132-159 `process_new_balance`, after parsing the new
balance: a negative balance is rejected with no mutation, otherwise
`database.admin_set_balance` runs. -/
def process_new_balance (db : DB) (u : Int) (nb : ℚ) : DB × SetSaldoResult :=
  if nb < 0 then (db, .invalidNegative)
  else
    let r := admin_set_balance db u nb
    if r.1 then (r.2, .ok) else (r.2, .dbError)

/-! ## The entry-point operations of the core, for invariant statements -/

/-- One externally triggered operation of the ledger core. -/
inductive Op where
  /-- `/start`: lazy account creation (main.py line 74). -/
  | start (u : Int)
  /-- `/pix <valor>`: deposit request. -/
  | pixDeposit (u : Int) (valor : ℚ) (pix_ok : Bool) (mp : String)
  /-- `/sacar <chave> <total>`: withdrawal request. -/
  | saque (u : Int) (chave : String) (total : ℚ)
  /-- webhook delivery of a gateway payment event. -/
  | webhook (mp : String) (status_mp : String) (valor_pago : ℚ)
  /-- admin approve/reject decision on a withdrawal. -/
  | adminWithdraw (admin : Int) (tid : Nat) (act : AdminAction) (ps : Bool) (pid : String)
  /-- admin `setsaldo` balance override. -/
  | setSaldo (u : Int) (nb : ℚ)

/-- The committed store after one operation. -/
def step (db : DB) : Op → DB
  | .start u => create_user_if_not_exists db u
  | .pixDeposit u v ok mp => (handle_pix_deposit db u v ok mp).1
  | .saque u c t => (handle_saque db u c t).1
  | .webhook m s v => (mercadopago_webhook db m s v).1
  | .adminWithdraw a tid act ps pid => (handle_admin_withdrawal_action db a tid act ps pid).1
  | .setSaldo u nb => (process_new_balance db u nb).1

/-- All stored balances are non-negative. -/
def nonnegDB (db : DB) : Prop := ∀ p ∈ db.users, 0 ≤ p.2

/-- All transaction amounts are non-negative. -/
def txnsNonneg (db : DB) : Prop := ∀ t ∈ db.txns, 0 ≤ t.amount

/-! ## Rounding lemmas -/

lemma ratFloor_intCast (k : ℤ) : ratFloor (k : ℚ) = k := by
  unfold ratFloor
  rw [Rat.num_intCast, Rat.den_intCast]
  exact Int.fdiv_one k

lemma roundHalfEven_intCast (k : ℤ) : roundHalfEven (k : ℚ) = k := by
  unfold roundHalfEven
  rw [ratFloor_intCast]
  norm_num

/-- `round2` is the identity on two-decimal values. -/
lemma round2_grid_self (k : ℤ) : round2 ((k : ℚ) / 100) = (k : ℚ) / 100 := by
  unfold round2
  have h : ((k : ℚ) / 100) * 100 = (k : ℚ) := by
    field_simp
  rw [h, roundHalfEven_intCast]

/-- Every `round2` output is a two-decimal value. -/
lemma round2_is_grid (q : ℚ) : ∃ k : ℤ, round2 q = (k : ℚ) / 100 :=
  ⟨roundHalfEven (q * 100), rfl⟩

/-! ## Claim C1 -/

/-- The C1/C2 scenario: user 1 holds balance 200 and issues
`/sacar chave 100`. -/
def saqueScenario : DB × SaqueResult :=
  handle_saque ⟨[(1, 200)], [], 1⟩ 1 "chave" 100

/-- The committed store after the C1 scenario. -/
def saqueDB : DB := saqueScenario.1

/-- The C2 scenario continues C1's: an admin (id 99) rejects
withdrawal 1. -/
def rejectScenario : DB × AdminResult :=
  handle_admin_withdrawal_action saqueDB 99 1 AdminAction.reject true "p"

set_option maxRecDepth 2000 in
/-- Claim C1 (refuted — bug in the code): the withdrawal "atomic group"
is claimed to apply the debit of `totalDebit`, the WITHDRAWAL record and
the FEE record all-or-nothing, with the balance unchanged on failure.
On a validated request (user 1, balance 200, `/sacar chave 100`) the
code instead commits the debit and the WITHDRAWAL record and never
creates the FEE record, while reporting an error to the user: the first
`record_transaction(conn_ext=conn, ...)` commits and closes the shared
connection (`kwargs.pop('conn_ext')` removed the key, so the
`'conn_ext' not in kwargs` guards fire), and the FEE insert then dies on
the closed connection. -/
theorem C1_saque_partial_commit :
    saqueScenario.2 = SaqueResult.genericError
    ∧ get_balance saqueScenario.1 1 = 100
    ∧ saqueScenario.1.txns.countP (fun t => t.type == "WITHDRAWAL") = 1
    ∧ saqueScenario.1.txns.countP (fun t => t.type == "FEE") = 0 := by
  with_unfolding_all decide

/-! ## Claim C2 -/

set_option maxRecDepth 2000 in
lemma rejectScenario_result : rejectScenario.2 = AdminResult.rejectedRefunded := by
  with_unfolding_all decide

set_option maxRecDepth 2000 in
lemma rejectScenario_status : statusOf rejectScenario.1 1 = some STATUS_RECUSADO := by
  with_unfolding_all decide

set_option maxRecDepth 2000 in
lemma rejectScenario_balance : get_balance rejectScenario.1 1 = 19415/100 :=
  Rat.ext (by with_unfolding_all decide) (by with_unfolding_all decide)

/-- Claim C2 (refuted — consequence of the C1 bug): after
`adminRejectWithdrawal` the balance is claimed to return to its
pre-withdrawal value (compensating credit of `amountReceived + fee`).
Starting from balance 200, `/sacar chave 100` debits 100 (committed, see
C1) but never creates the FEE record, so at rejection time
`get_fee_for_withdrawal` finds nothing and returns `0.00`: the refund is
only `amountReceived = 94.15`, leaving the balance at 194.15, not 200 —
even though the transaction does reach the terminal `RECUSADO` status
and the user is told the total debit was returned in full. -/
theorem C2_reject_refund_shortfall :
    rejectScenario.2 = AdminResult.rejectedRefunded
    ∧ statusOf rejectScenario.1 1 = some STATUS_RECUSADO
    ∧ get_balance rejectScenario.1 1 = 19415/100
    ∧ ¬ get_balance rejectScenario.1 1 = 200 := by
  refine ⟨rejectScenario_result, rejectScenario_status, rejectScenario_balance, ?ne⟩
  rw [rejectScenario_balance]
  norm_num

/-! ## Claim C3 -/

/-- The C3 scenario: user 1 at balance 0 with a recorded pending DEPOSIT
of 100 under external reference "42"; the gateway reports it approved
with confirmed amount 100. -/
def webhookOnce : DB × WebhookResult :=
  mercadopago_webhook
    ⟨[(1, 0)], [⟨1, 1, "DEPOSIT", 100, STATUS_DEPOSITO_PENDENTE, none, some "42", none⟩], 2⟩
    "42" "approved" 100

/-- A second, identical delivery of the same webhook. -/
def webhookTwice : DB × WebhookResult :=
  mercadopago_webhook webhookOnce.1 "42" "approved" 100


set_option maxRecDepth 2000 in
/-- Claim C3 (refuted — consequence of the `conn_ext` bug in the
webhook's atomic block): `reconcile(externalRef)` is claimed idempotent,
crediting the account exactly once across duplicate deliveries.  In the
code the first delivery commits the credit (89) and the FEE row but dies
before marking the deposit `PAGO` (the status update runs on the
connection that `record_transaction` already closed), so the deposit
stays `AGUARDANDO PAGAMENTO`; the second identical delivery finds it
still pending and credits again: balance 178 and two FEE rows after two
deliveries of the same approved payload. -/
theorem C3_webhook_double_credit :
    get_balance webhookOnce.1 1 = 89
    ∧ webhookOnce.2 = WebhookResult.internalError
    ∧ statusOf webhookOnce.1 1 = some STATUS_DEPOSITO_PENDENTE
    ∧ get_balance webhookTwice.1 1 = 178
    ∧ webhookTwice.1.txns.countP (fun t => t.type == "FEE") = 2 := by
  with_unfolding_all decide

/-! ## Claim C5 -/

/-- Claim C5 (confirmed): for a two-decimal `totalDebit > F` (with
`F = TAXA_SAQUE_FIXA` and `p = TAXA_SAQUE_PERCENTUAL`), the values
`amountReceived = round((totalDebit − F) / (1 + p), 2)` and
`fee = round(totalDebit − amountReceived, 2)` computed at main.py
lines 239-245 satisfy `amountReceived + fee = totalDebit` exactly. -/
theorem C5_saque_roundtrip (t : ℚ) (k : ℤ) (hk : t = (k : ℚ) / 100)
    (hF : TAXA_SAQUE_FIXA < t) :
    round2 ((t - TAXA_SAQUE_FIXA) / (1 + TAXA_SAQUE_PERCENTUAL))
      + round2 (t - round2 ((t - TAXA_SAQUE_FIXA) / (1 + TAXA_SAQUE_PERCENTUAL))) = t := by
  obtain ⟨m, hm⟩ := round2_is_grid ((t - TAXA_SAQUE_FIXA) / (1 + TAXA_SAQUE_PERCENTUAL))
  rw [hm, hk]
  have h : (k : ℚ) / 100 - (m : ℚ) / 100 = ((k - m : ℤ) : ℚ) / 100 := by
    push_cast
    ring
  rw [h, round2_grid_self]
  push_cast
  ring

/-- Witness for C5 at `totalDebit = 100` (the spec's Scenario B:
`amountReceived = 94.15`, `fee = 5.85`, sum `100`). -/
theorem C5_saque_roundtrip_witness :
    TAXA_SAQUE_FIXA < (100 : ℚ)
    ∧ round2 ((100 - TAXA_SAQUE_FIXA) / (1 + TAXA_SAQUE_PERCENTUAL))
        + round2 (100 - round2 ((100 - TAXA_SAQUE_FIXA) / (1 + TAXA_SAQUE_PERCENTUAL))) = 100 :=
  ⟨by norm_num [TAXA_SAQUE_FIXA],
    C5_saque_roundtrip 100 10000 (by norm_num) (by norm_num [TAXA_SAQUE_FIXA])⟩

/-! ## Claim C7 -/

/-- The spec's Scenario A: user 1 at balance 0 requests a deposit of
100.00 (gateway charge succeeds with reference "mp1"), and the gateway
later reports it approved with confirmed amount 100.00. -/
def depositScenario : DB × WebhookResult :=
  mercadopago_webhook (handle_pix_deposit ⟨[(1, 0)], [], 1⟩ 1 100 true "mp1").1
    "mp1" "approved" 100


set_option maxRecDepth 2000 in
/-- Claim C7 (confirmed): with `depositFeeRate = 0.11`, an account at
balance 0 that requests a deposit of 100.00 and then receives the
approved/confirmed-100.00 reconciliation ends at balance exactly 89.00
with exactly one FEE transaction of exactly 11.00 recorded. -/
theorem C7_deposit_fee_scenario :
    get_balance depositScenario.1 1 = 89
    ∧ depositScenario.1.txns.countP (fun t => t.type == "FEE") = 1
    ∧ (depositScenario.1.txns.find? (fun t => t.type == "FEE")).map (fun t => t.amount)
        = some 11 := by
  with_unfolding_all decide

/-! ## Helper lemmas on the primitive operations -/

lemma find?_map_inv {α : Type} (f : α → α) (p : α → Bool) (hf : ∀ a, p (f a) = p a) :
    ∀ l : List α, (l.map f).find? p = (l.find? p).map f := by
  intro l
  induction l with
  | nil => rfl
  | cons a l ih =>
    cases h : p a with
    | true =>
      rw [List.map_cons, List.find?_cons_of_pos _ ((hf a).trans h),
        List.find?_cons_of_pos _ h]
      rfl
    | false =>
      rw [List.map_cons, List.find?_cons_of_neg _ (by rw [hf a, h]; exact Bool.false_ne_true),
        List.find?_cons_of_neg _ (by rw [h]; exact Bool.false_ne_true), ih]

lemma countP_map_inv {α : Type} (f : α → α) (p : α → Bool) (hf : ∀ a, p (f a) = p a) :
    ∀ l : List α, (l.map f).countP p = l.countP p := by
  intro l
  induction l with
  | nil => rfl
  | cons a l ih =>
    rw [List.map_cons, List.countP_cons, List.countP_cons, ih, hf a]

lemma setUserBalance_not_mem {users : List (Int × ℚ)} {u : Int} {nb : ℚ}
    (h : ∀ p ∈ users, ¬ p.1 = u) : setUserBalance users u nb = users := by
  unfold setUserBalance
  have h2 : users.map (fun p => if p.1 == u then (p.1, nb) else p) = users.map id :=
    List.map_congr_left (fun p hp => by
      show (if p.1 == u then (p.1, nb) else p) = id p
      rw [if_neg (by simp only [beq_iff_eq]; exact h p hp)]
      rfl)
  rw [h2, List.map_id]

/-- The per-row update of `update_transaction_status` leaves `id` (and
`type`, `user_telegram_id`, `amount`) untouched. -/
lemma applyStatus_id (st : String) (mp notes : Option String) (t : Txn) :
    (applyStatus st mp notes t).id = t.id := rfl

lemma updRow_pos {t : Txn} {tid : Nat} (st : String) (mp notes : Option String)
    (h : (t.id == tid) = true) : updRow tid st mp notes t = applyStatus st mp notes t := by
  unfold updRow
  rw [if_pos h]

lemma updRow_neg {t : Txn} {tid : Nat} (st : String) (mp notes : Option String)
    (h : ¬ (t.id == tid) = true) : updRow tid st mp notes t = t := by
  unfold updRow
  rw [if_neg h]

lemma updRow_id (tid : Nat) (st : String) (mp notes : Option String) (t : Txn) :
    (updRow tid st mp notes t).id = t.id := by
  unfold updRow
  split <;> rfl

lemma applyStatus_idem (st : String) (mp notes : Option String) (t : Txn) :
    applyStatus st mp notes (applyStatus st mp notes t) = applyStatus st mp notes t := by
  unfold applyStatus
  cases mp <;> cases notes <;> rfl

lemma updRow_idem (tid : Nat) (st : String) (mp notes : Option String) (t : Txn) :
    updRow tid st mp notes (updRow tid st mp notes t) = updRow tid st mp notes t := by
  by_cases h : (t.id == tid) = true
  · rw [updRow_pos st mp notes h, updRow_pos st mp notes (by rw [applyStatus_id]; exact h),
      applyStatus_idem]
  · rw [updRow_neg st mp notes h, updRow_neg st mp notes h]

lemma get_details_upd_core (db : DB) (tid tid' : Nat) (st : String) (mp notes : Option String) :
    get_transaction_details (update_transaction_status_core db tid' st mp notes) tid
      = (get_transaction_details db tid).map (updRow tid' st mp notes) := by
  unfold get_transaction_details update_transaction_status_core
  exact find?_map_inv _ _ (fun a => by rw [updRow_id]) db.txns

lemma statusOf_upd_core_isSome {db : DB} {tid : Nat} (st : String) (mp notes : Option String)
    (h : (get_transaction_details db tid).isSome) :
    statusOf (update_transaction_status_core db tid st mp notes) tid = some st := by
  unfold statusOf
  rw [get_details_upd_core]
  cases hd : get_transaction_details db tid with
  | none => rw [hd] at h; exact absurd h (by simp)
  | some t =>
    unfold get_transaction_details at hd
    have hp : (t.id == tid) = true :=
      @List.find?_some Txn (fun x => x.id == tid) t db.txns hd
    show some ((updRow tid st mp notes t).status) = some st
    rw [updRow_pos st mp notes hp]
    rfl

lemma update_balance_txns (db : DB) (u : Int) (delta : ℚ) :
    (update_balance db u delta).2.txns = db.txns := by
  unfold update_balance update_balance_core
  split <;> rfl

lemma statusOf_update_balance (db : DB) (u : Int) (delta : ℚ) (tid : Nat) :
    statusOf (update_balance db u delta).2 tid = statusOf db tid := by
  unfold statusOf get_transaction_details
  rw [update_balance_txns]

lemma get_details_update_balance (db : DB) (u : Int) (delta : ℚ) (tid : Nat) :
    get_transaction_details (update_balance db u delta).2 tid
      = get_transaction_details db tid := by
  unfold get_transaction_details
  rw [update_balance_txns]

lemma lookupBalance_nonneg {db : DB} (u : Int) (h : nonnegDB db) :
    0 ≤ (lookupBalance db.users u).getD 0 := by
  unfold lookupBalance
  cases hf : db.users.find? (fun p => p.1 == u) with
  | none => exact le_refl 0
  | some p =>
    show 0 ≤ p.2
    exact h p (List.mem_of_find?_eq_some hf)

lemma update_balance_true {db : DB} {u : Int} {delta : ℚ}
    (h : nonnegDB db) (hd : 0 ≤ delta) : (update_balance db u delta).1 = true := by
  unfold update_balance update_balance_core
  rw [if_neg (not_lt.mpr (add_nonneg (lookupBalance_nonneg u h) hd))]

lemma get_fee_nonneg {db : DB} (wid : Nat) (h : txnsNonneg db) :
    0 ≤ get_fee_for_withdrawal db wid := by
  unfold get_fee_for_withdrawal
  cases hf : db.txns.find? (fun t => t.type == "FEE" && t.admin_notes == some (feeNote wid)) with
  | none => exact le_refl 0
  | some t => exact h t (List.mem_of_find?_eq_some hf)

/-! ## Claim C8 -/

/-- Counterexample to claim C8 as stated: on an empty store,
`update_transaction_status(1, CONCLUÍDO)` matches no row, yet it reports
success (`True`) instead of failing loudly — the rowcount is never
inspected. -/
theorem C8_missing_id_reports_success :
    update_transaction_status (⟨[], [], 1⟩ : DB) 1 STATUS_CONCLUIDO none none
      = (true, (⟨[], [], 1⟩ : DB)) := rfl

/-- Claim C8 amended: `update_transaction_status` always reports success
(`True`); when no transaction with the id exists it mutates nothing (a
silent no-op rather than a loud failure); and retrying the same update
(same status and same optional fields) is idempotent. -/
theorem C8_update_status_amended (db : DB) (tid : Nat) (st : String) (mp notes : Option String) :
    (update_transaction_status db tid st mp notes).1 = true
    ∧ ((∀ t ∈ db.txns, ¬ t.id = tid) → (update_transaction_status db tid st mp notes).2 = db)
    ∧ update_transaction_status (update_transaction_status db tid st mp notes).2 tid st mp notes
        = update_transaction_status db tid st mp notes := by
  refine ⟨rfl, ?_, ?_⟩
  · intro h
    show ({ db with txns := db.txns.map (updRow tid st mp notes) } : DB) = db
    have h2 : db.txns.map (updRow tid st mp notes) = db.txns.map id :=
      List.map_congr_left (fun t ht => updRow_neg st mp notes (by
        simp only [beq_iff_eq]
        exact h t ht))
    rw [h2, List.map_id]
  · have h2 : update_transaction_status_core
        (update_transaction_status_core db tid st mp notes) tid st mp notes
        = update_transaction_status_core db tid st mp notes := by
      unfold update_transaction_status_core
      simp only [List.map_map]
      congr 1
      exact List.map_congr_left (fun t _ => updRow_idem tid st mp notes t)
    show (true, update_transaction_status_core
        (update_transaction_status_core db tid st mp notes) tid st mp notes)
      = (true, update_transaction_status_core db tid st mp notes)
    rw [h2]

/-- Witness for the amended C8 on a store holding one transaction. -/
theorem C8_update_status_amended_witness :
    (update_transaction_status (⟨[], [⟨1, 1, "FEE", 2, "PAGO", none, none, none⟩], 2⟩ : DB)
        7 STATUS_CONCLUIDO none none).1 = true
    ∧ (update_transaction_status (⟨[], [⟨1, 1, "FEE", 2, "PAGO", none, none, none⟩], 2⟩ : DB)
        7 STATUS_CONCLUIDO none none).2
      = (⟨[], [⟨1, 1, "FEE", 2, "PAGO", none, none, none⟩], 2⟩ : DB)
    ∧ update_transaction_status
        (update_transaction_status (⟨[], [⟨1, 1, "FEE", 2, "PAGO", none, none, none⟩], 2⟩ : DB)
          7 STATUS_CONCLUIDO none none).2 7 STATUS_CONCLUIDO none none
      = update_transaction_status (⟨[], [⟨1, 1, "FEE", 2, "PAGO", none, none, none⟩], 2⟩ : DB)
          7 STATUS_CONCLUIDO none none :=
  ⟨(C8_update_status_amended _ 7 STATUS_CONCLUIDO none none).1,
    (C8_update_status_amended _ 7 STATUS_CONCLUIDO none none).2.1 (by decide),
    (C8_update_status_amended _ 7 STATUS_CONCLUIDO none none).2.2⟩

/-! ## Claim C9 -/

lemma updRow_type (tid : Nat) (st : String) (mp notes : Option String) (t : Txn) :
    (updRow tid st mp notes t).type = t.type := by
  unfold updRow
  split <;> rfl

/-- Claim C9 (confirmed): when the gateway reports a pending deposit
approved but the confirmed amount `vp` differs from the recorded amount,
the webhook transitions the deposit to the `ERRO_DIVERGENCIA`
(AMOUNT_MISMATCH) status and stops: balances are untouched, no
transaction is added, and no FEE transaction is recorded — flagging is
the only mutation. -/
theorem C9_amount_mismatch_flags_only (db : DB) (mp : String) (vp : ℚ) (t : Txn)
    (hfind : db.txns.find? (fun x => x.mercado_pago_id == some mp
        && x.status == STATUS_DEPOSITO_PENDENTE) = some t)
    (hneq : ¬ vp = t.amount) :
    (mercadopago_webhook db mp "approved" vp).2 = WebhookResult.amountMismatch
    ∧ (mercadopago_webhook db mp "approved" vp).1.users = db.users
    ∧ (mercadopago_webhook db mp "approved" vp).1.txns.length = db.txns.length
    ∧ (mercadopago_webhook db mp "approved" vp).1.txns.countP (fun x => x.type == "FEE")
        = db.txns.countP (fun x => x.type == "FEE")
    ∧ statusOf (mercadopago_webhook db mp "approved" vp).1 t.id = some "ERRO_DIVERGENCIA" := by
  have hw : mercadopago_webhook db mp "approved" vp
      = ((update_transaction_status db t.id "ERRO_DIVERGENCIA"
          none (some "Valor esperado difere do valor pago.")).2,
        WebhookResult.amountMismatch) := by
    unfold mercadopago_webhook
    rw [hfind]
    show (if "approved" = "approved" then _ else _) = _
    rw [if_pos rfl, if_pos hneq]
  rw [hw]
  have hsome : (get_transaction_details db t.id).isSome := by
    unfold get_transaction_details
    refine List.find?_isSome.mpr ⟨t, List.mem_of_find?_eq_some hfind, ?_⟩
    exact beq_self_eq_true t.id
  refine ⟨rfl, rfl, ?_, ?_, ?_⟩
  · exact List.length_map _ _
  · exact countP_map_inv _ _ (fun a => by rw [updRow_type]) db.txns
  · exact statusOf_upd_core_isSome _ _ _ hsome

/-- Witness for C9: a pending deposit of 100 under reference "42",
reconciled as approved with confirmed amount 50. -/
theorem C9_amount_mismatch_flags_only_witness :
    (mercadopago_webhook
        (⟨[(1, 0)], [⟨1, 1, "DEPOSIT", 100, STATUS_DEPOSITO_PENDENTE, none, some "42", none⟩], 2⟩ : DB)
        "42" "approved" 50).2 = WebhookResult.amountMismatch
    ∧ (mercadopago_webhook
        (⟨[(1, 0)], [⟨1, 1, "DEPOSIT", 100, STATUS_DEPOSITO_PENDENTE, none, some "42", none⟩], 2⟩ : DB)
        "42" "approved" 50).1.users
      = (⟨[(1, 0)], [⟨1, 1, "DEPOSIT", 100, STATUS_DEPOSITO_PENDENTE, none, some "42", none⟩], 2⟩ : DB).users
    ∧ (mercadopago_webhook
        (⟨[(1, 0)], [⟨1, 1, "DEPOSIT", 100, STATUS_DEPOSITO_PENDENTE, none, some "42", none⟩], 2⟩ : DB)
        "42" "approved" 50).1.txns.length
      = (⟨[(1, 0)], [⟨1, 1, "DEPOSIT", 100, STATUS_DEPOSITO_PENDENTE, none, some "42", none⟩], 2⟩ : DB).txns.length
    ∧ (mercadopago_webhook
        (⟨[(1, 0)], [⟨1, 1, "DEPOSIT", 100, STATUS_DEPOSITO_PENDENTE, none, some "42", none⟩], 2⟩ : DB)
        "42" "approved" 50).1.txns.countP (fun x => x.type == "FEE")
      = (⟨[(1, 0)], [⟨1, 1, "DEPOSIT", 100, STATUS_DEPOSITO_PENDENTE, none, some "42", none⟩], 2⟩ : DB).txns.countP
          (fun x => x.type == "FEE")
    ∧ statusOf (mercadopago_webhook
        (⟨[(1, 0)], [⟨1, 1, "DEPOSIT", 100, STATUS_DEPOSITO_PENDENTE, none, some "42", none⟩], 2⟩ : DB)
        "42" "approved" 50).1 1 = some "ERRO_DIVERGENCIA" :=
  C9_amount_mismatch_flags_only
    (⟨[(1, 0)], [⟨1, 1, "DEPOSIT", 100, STATUS_DEPOSITO_PENDENTE, none, some "42", none⟩], 2⟩ : DB)
    "42" 50 ⟨1, 1, "DEPOSIT", 100, STATUS_DEPOSITO_PENDENTE, none, some "42", none⟩
    (by with_unfolding_all decide) (by with_unfolding_all decide)

/-! ## Claim C4 -/

/-- Both views of a connection have non-negative balances. -/
def connNonneg (c : Conn) : Prop := nonnegDB c.committed ∧ nonnegDB c.pending

lemma nonnegDB_users_eq {db db' : DB} (hu : db'.users = db.users) (h : nonnegDB db) :
    nonnegDB db' := by
  intro p hp
  exact h p (hu ▸ hp)

lemma nonneg_setUserBalance {users : List (Int × ℚ)} {u : Int} {nb : ℚ}
    (h : ∀ p ∈ users, 0 ≤ p.2) (hnb : 0 ≤ nb) :
    ∀ p ∈ setUserBalance users u nb, 0 ≤ p.2 := by
  intro p hp
  unfold setUserBalance at hp
  obtain ⟨q, hq, hpq⟩ := List.mem_map.mp hp
  by_cases hc : (q.1 == u) = true
  · rw [if_pos hc] at hpq
    rw [← hpq]
    exact hnb
  · rw [if_neg hc] at hpq
    rw [← hpq]
    exact h q hq

lemma nonneg_update_balance_core {db : DB} {u : Int} {delta : ℚ} (h : nonnegDB db) :
    nonnegDB (update_balance_core db u delta).2 := by
  unfold update_balance_core
  split
  · exact h
  · rename_i hlt
    exact fun p hp => nonneg_setUserBalance h (not_lt.mp hlt) p hp

lemma nonneg_update_balance {db : DB} {u : Int} {delta : ℚ} (h : nonnegDB db) :
    nonnegDB (update_balance db u delta).2 :=
  nonneg_update_balance_core h

lemma connNonneg_update_balance_ext {c : Conn} {u : Int} {delta : ℚ} (h : connNonneg c) :
    connNonneg (update_balance_ext c u delta).2 := by
  unfold update_balance_ext
  split
  · exact h
  · exact ⟨h.1, nonneg_update_balance_core h.2⟩

lemma connNonneg_record_ext {c : Conn} {mk : Nat → Txn} (h : connNonneg c) :
    connNonneg (record_transaction_ext c mk).2 := by
  unfold record_transaction_ext
  split
  · exact h
  · exact ⟨nonnegDB_users_eq rfl h.2, nonnegDB_users_eq rfl h.2⟩

lemma connNonneg_upd_status_ext {c : Conn} {tid : Nat} {st : String} {mp notes : Option String}
    (h : connNonneg c) :
    connNonneg (update_transaction_status_ext c tid st mp notes).2 := by
  unfold update_transaction_status_ext
  split
  · exact h
  · exact ⟨nonnegDB_users_eq rfl h.2, nonnegDB_users_eq rfl h.2⟩

lemma nonneg_create_user {db : DB} {u : Int} (h : nonnegDB db) :
    nonnegDB (create_user_if_not_exists db u) := by
  unfold create_user_if_not_exists
  split
  · exact h
  · intro p hp
    rcases List.mem_append.mp hp with h1 | h2
    · exact h p h1
    · rw [List.mem_singleton.mp h2]

lemma nonneg_handle_saque {db : DB} {u : Int} {ch : String} {t : ℚ} (h : nonnegDB db) :
    nonnegDB (handle_saque db u ch t).1 := by
  have h0 : nonnegDB (create_user_if_not_exists db u) := nonneg_create_user h
  simp only [handle_saque]
  by_cases h1 : t ≤ TAXA_SAQUE_FIXA
  · rw [if_pos h1]
    exact h0
  · rw [if_neg h1]
    by_cases h2 : round2 ((t - TAXA_SAQUE_FIXA) / (1 + TAXA_SAQUE_PERCENTUAL)) ≤ 0
    · rw [if_pos h2]
      exact h0
    · rw [if_neg h2]
      by_cases h3 : get_balance (create_user_if_not_exists db u) u < t
      · rw [if_pos h3]
        exact h0
      · rw [if_neg h3]
        -- the remaining term reduces definitionally: the WITHDRAWAL insert
        -- commits the debited pending view, the FEE insert dies on the
        -- closed connection, and the committed store is the insert over
        -- the debited view — whose users are the debited users
        exact nonnegDB_users_eq rfl (nonneg_update_balance_core h0)

lemma nonneg_webhook {db : DB} {mp st : String} {vp : ℚ} (h : nonnegDB db) :
    nonnegDB (mercadopago_webhook db mp st vp).1 := by
  simp only [mercadopago_webhook]
  cases hf : db.txns.find? (fun t => t.mercado_pago_id == some mp
      && t.status == STATUS_DEPOSITO_PENDENTE) with
  | none => exact h
  | some txn =>
    dsimp only
    by_cases ha : st = "approved"
    · rw [if_pos ha]
      by_cases hv : ¬ vp = txn.amount
      · rw [if_pos hv]
        exact nonnegDB_users_eq rfl h
      · rw [if_neg hv]
        -- the crediting block reduces definitionally: the FEE insert
        -- commits credit + fee, the status update dies on the closed
        -- connection, and the committed users are the credited users
        exact nonnegDB_users_eq rfl (nonneg_update_balance_core h)
    · rw [if_neg ha]
      exact nonnegDB_users_eq rfl h

lemma nonneg_admin_action {db : DB} {a : Int} {tid : Nat} {act : AdminAction}
    {ps : Bool} {pid : String} (h : nonnegDB db) :
    nonnegDB (handle_admin_withdrawal_action db a tid act ps pid).1 := by
  simp only [handle_admin_withdrawal_action]
  cases hd : get_transaction_details db tid with
  | none => exact h
  | some txn =>
    dsimp only
    by_cases hg : ¬ txn.status = STATUS_EM_ANALISE
    · rw [if_pos hg]
      exact h
    · rw [if_neg hg]
      cases act with
      | approve =>
        by_cases hp : ps = true
        · rw [if_pos hp]
          exact nonnegDB_users_eq rfl h
        · rw [if_neg hp]
          by_cases hr : (update_balance
              (update_transaction_status
                (update_transaction_status db tid STATUS_EM_ANDAMENTO none none).2
                tid STATUS_FALHA_PAGAMENTO none
                (some ("Admin " ++ toString a ++ " tentou aprovar. Gateway: falha."))).2
              txn.user_telegram_id
              (txn.amount + get_fee_for_withdrawal
                (update_transaction_status
                  (update_transaction_status db tid STATUS_EM_ANDAMENTO none none).2
                  tid STATUS_FALHA_PAGAMENTO none
                  (some ("Admin " ++ toString a ++ " tentou aprovar. Gateway: falha."))).2
                tid)).1 = true
          · rw [if_pos hr]
            exact nonneg_update_balance (nonnegDB_users_eq rfl h)
          · rw [if_neg hr]
            exact nonneg_update_balance (nonnegDB_users_eq rfl h)
      | reject =>
        by_cases hr : (update_balance db txn.user_telegram_id
            (txn.amount + get_fee_for_withdrawal db tid)).1 = true
        · rw [if_pos hr]
          exact nonnegDB_users_eq rfl (nonneg_update_balance h)
        · rw [if_neg hr]
          exact nonneg_update_balance h

lemma nonneg_admin_set_balance {db : DB} {u : Int} {nb : ℚ} (h : nonnegDB db) (hnb : 0 ≤ nb) :
    nonnegDB (admin_set_balance db u nb).2 := by
  unfold admin_set_balance
  split
  · exact fun p hp => nonneg_setUserBalance h hnb p hp
  · exact h

lemma nonneg_process_new_balance {db : DB} {u : Int} {nb : ℚ} (h : nonnegDB db) :
    nonnegDB (process_new_balance db u nb).1 := by
  simp only [process_new_balance]
  split
  · exact h
  · rename_i hnb
    split
    · exact nonneg_admin_set_balance h (not_lt.mp hnb)
    · exact nonneg_admin_set_balance h (not_lt.mp hnb)

lemma nonneg_pix_deposit {db : DB} {u : Int} {v : ℚ} {ok : Bool} {mp : String}
    (h : nonnegDB db) : nonnegDB (handle_pix_deposit db u v ok mp).1 := by
  simp only [handle_pix_deposit]
  split
  · exact h
  · split
    · exact h
    · exact nonnegDB_users_eq rfl h

/-- Claim C4 (confirmed): `balance ≥ 0` for every account is an
invariant preserved by every entry-point operation of the core —
deposit request, deposit credit via the webhook, withdrawal debit,
admin approve/reject with its refund credit, and the admin balance
override (whose front end rejects negative amounts before calling
`admin_set_balance`).  Every balance mutation flows through
`update_balance`'s negativity guard or through the guarded admin
override, so no operation can drive a stored balance below zero. -/
theorem C4_balance_nonneg_invariant (db : DB) (op : Op) (h : nonnegDB db) :
    nonnegDB (step db op) := by
  cases op with
  | start u => exact nonneg_create_user h
  | pixDeposit u v ok mp => exact nonneg_pix_deposit h
  | saque u c t => exact nonneg_handle_saque h
  | webhook m s v => exact nonneg_webhook h
  | adminWithdraw a tid act ps pid => exact nonneg_admin_action h
  | setSaldo u nb => exact nonneg_process_new_balance h

/-- Witness for C4: the invariant holds before and after the withdrawal
of the C1 scenario. -/
theorem C4_balance_nonneg_invariant_witness :
    nonnegDB (⟨[(1, 200)], [], 1⟩ : DB)
    ∧ nonnegDB (step (⟨[(1, 200)], [], 1⟩ : DB) (Op.saque 1 "chave" 100)) :=
  ⟨by unfold nonnegDB; with_unfolding_all decide,
    C4_balance_nonneg_invariant _ (Op.saque 1 "chave" 100)
      (by unfold nonnegDB; with_unfolding_all decide)⟩

/-! ## Claim C6 -/

lemma update_transaction_status_snd (db : DB) (tid : Nat) (st : String)
    (mp notes : Option String) :
    (update_transaction_status db tid st mp notes).2
      = update_transaction_status_core db tid st mp notes := rfl

lemma fst_if_pair {c : Prop} [Decidable c] (x : DB) (y z : AdminResult) :
    (if c then (x, y) else (x, z)).1 = x := by
  split <;> rfl

/-- adm.py lines 180-184: an admin action on a transaction that is
missing or not in `EM ANÁLISE` is a pure no-op answered with the
"already handled" message. -/
lemma admin_guard_noop (db : DB) (a : Int) (tid : Nat) (act : AdminAction)
    (ps : Bool) (pid : String)
    (h : ¬ statusOf db tid = some STATUS_EM_ANALISE) :
    handle_admin_withdrawal_action db a tid act ps pid = (db, AdminResult.alreadyProcessed) := by
  simp only [handle_admin_withdrawal_action]
  split
  · rfl
  · rename_i t hd
    have hts : ¬ t.status = STATUS_EM_ANALISE := fun he => h (by
      unfold statusOf
      rw [hd]
      show some t.status = some STATUS_EM_ANALISE
      rw [he])
    rw [if_pos hts]

/-- After any admin approve/reject action on a well-formed store, the
targeted transaction is never left in `EM ANÁLISE`: each decision path
ends in `CONCLUÍDO`, `FALHA NO PAGAMENTO` or `RECUSADO` (the refund
before `RECUSADO` always succeeds on a well-formed store, since balances
and amounts are non-negative). -/
lemma admin_status_after (db : DB) (a : Int) (tid : Nat) (act : AdminAction)
    (ps : Bool) (pid : String) (hb : nonnegDB db) (ha : txnsNonneg db) :
    ¬ statusOf (handle_admin_withdrawal_action db a tid act ps pid).1 tid
        = some STATUS_EM_ANALISE := by
  simp only [handle_admin_withdrawal_action]
  split
  · rename_i hd
    unfold statusOf
    rw [hd]
    intro hc
    exact Option.noConfusion hc
  · rename_i t hd
    by_cases hg : ¬ t.status = STATUS_EM_ANALISE
    · rw [if_pos hg]
      unfold statusOf
      rw [hd]
      intro hc
      exact hg (Option.some.inj hc)
    · rw [if_neg hg]
      have hd' : db.txns.find? (fun x => x.id == tid) = some t := hd
      have hsome1 : (get_transaction_details
          (update_transaction_status db tid STATUS_EM_ANDAMENTO none none).2 tid).isSome := by
        rw [update_transaction_status_snd, get_details_upd_core, hd]
        rfl
      cases act with
      | approve =>
        by_cases hp : ps = true
        · rw [if_pos hp]
          simp only [update_transaction_status_snd]
          intro hc
          rw [statusOf_upd_core_isSome STATUS_CONCLUIDO (some pid) none
            (by rw [← update_transaction_status_snd]; exact hsome1)] at hc
          exact absurd (Option.some.inj hc) (by decide)
        · rw [if_neg hp]
          rw [fst_if_pair]
          intro hc
          rw [statusOf_update_balance] at hc
          simp only [update_transaction_status_snd] at hc
          rw [statusOf_upd_core_isSome STATUS_FALHA_PAGAMENTO none
            (some ("Admin " ++ toString a ++ " tentou aprovar. Gateway: falha."))
            (by rw [← update_transaction_status_snd]; exact hsome1)] at hc
          exact absurd (Option.some.inj hc) (by decide)
      | reject =>
        have hmem : t ∈ db.txns := List.mem_of_find?_eq_some hd'
        have hr : (update_balance db t.user_telegram_id
            (t.amount + get_fee_for_withdrawal db tid)).1 = true :=
          update_balance_true hb (add_nonneg (ha t hmem) (get_fee_nonneg tid ha))
        rw [if_pos hr]
        simp only [update_transaction_status_snd]
        intro hc
        rw [statusOf_upd_core_isSome STATUS_RECUSADO none
          (some ("Rejeitado pelo administrador " ++ toString a ++ "."))
          (by rw [get_details_update_balance, hd]; rfl)] at hc
        exact absurd (Option.some.inj hc) (by decide)

/-- Claim C6 (confirmed): an admin approve/reject on a withdrawal that
is not currently `EM ANÁLISE` (UNDER_REVIEW) — missing or already
decided — performs no state transition and no balance mutation (the
store is returned unchanged) and signals "already processed"; and on a
well-formed store (non-negative balances and amounts), once one admin
decision has been taken on an `EM ANÁLISE` withdrawal, any second
decision on it is such a no-op — at most one decision ever takes
effect. -/
theorem C6_admin_guard_single_decision (db : DB) (a1 a2 : Int) (tid : Nat)
    (act act2 : AdminAction) (ps ps2 : Bool) (pid pid2 : String)
    (hb : nonnegDB db) (ha : txnsNonneg db) :
    (¬ statusOf db tid = some STATUS_EM_ANALISE →
      handle_admin_withdrawal_action db a1 tid act ps pid = (db, AdminResult.alreadyProcessed))
    ∧ (statusOf db tid = some STATUS_EM_ANALISE →
      handle_admin_withdrawal_action (handle_admin_withdrawal_action db a1 tid act ps pid).1
          a2 tid act2 ps2 pid2
        = ((handle_admin_withdrawal_action db a1 tid act ps pid).1,
          AdminResult.alreadyProcessed)) :=
  ⟨fun h => admin_guard_noop db a1 tid act ps pid h,
    fun _ => admin_guard_noop _ a2 tid act2 ps2 pid2
      (admin_status_after db a1 tid act ps pid hb ha)⟩

/-- A store whose only withdrawal was already concluded. -/
def guardDecidedDB : DB :=
  ⟨[(1, 50)], [⟨1, 1, "WITHDRAWAL", 10, STATUS_CONCLUIDO, some "k", none, none⟩], 2⟩

/-- A store whose only withdrawal is still under review. -/
def guardPendingDB : DB :=
  ⟨[(1, 50)], [⟨1, 1, "WITHDRAWAL", 10, STATUS_EM_ANALISE, some "k", none, none⟩], 2⟩

/-- Witness for C6: rejecting an already-concluded withdrawal is a
no-op, and a second decision after a first one on a pending withdrawal
is a no-op. -/
theorem C6_admin_guard_single_decision_witness :
    handle_admin_withdrawal_action guardDecidedDB 9 1 AdminAction.reject true "p"
      = (guardDecidedDB, AdminResult.alreadyProcessed)
    ∧ handle_admin_withdrawal_action
        (handle_admin_withdrawal_action guardPendingDB 9 1 AdminAction.reject true "p").1
        8 1 AdminAction.approve true "q"
      = ((handle_admin_withdrawal_action guardPendingDB 9 1 AdminAction.reject true "p").1,
        AdminResult.alreadyProcessed) :=
  ⟨(C6_admin_guard_single_decision guardDecidedDB 9 8 1 AdminAction.reject AdminAction.approve
      true true "p" "q" (by unfold nonnegDB; with_unfolding_all decide)
      (by unfold txnsNonneg; with_unfolding_all decide)).1
      (by with_unfolding_all decide),
    (C6_admin_guard_single_decision guardPendingDB 9 8 1 AdminAction.reject AdminAction.approve
      true true "p" "q" (by unfold nonnegDB; with_unfolding_all decide)
      (by unfold txnsNonneg; with_unfolding_all decide)).2
      (by with_unfolding_all decide)⟩

/-! ## Claim C10 -/

/-- Claim C10 (confirmed): for an account id with no stored row and a
non-negative delta, `update_balance` reports success (`True`) while
mutating nothing and creating no account: the missing row reads as
balance `0.0`, the negativity guard passes, and the `UPDATE` silently
matches zero rows. -/
theorem C10_update_balance_unknown_user (db : DB) (u : Int) (delta : ℚ)
    (hu : ∀ p ∈ db.users, ¬ p.1 = u) (hd : 0 ≤ delta) :
    update_balance db u delta = (true, db) := by
  unfold update_balance update_balance_core
  have hnone : lookupBalance db.users u = none := by
    unfold lookupBalance
    rw [List.find?_eq_none.mpr]
    · rfl
    · intro p hp
      simp only [beq_iff_eq]
      exact hu p hp
  rw [hnone]
  rw [if_neg (by simpa using not_lt.mpr hd)]
  rw [setUserBalance_not_mem hu]

/-- Witness for C10: crediting a refund of 3 to unknown account 1 in a
store that only knows account 2 reports success and changes nothing. -/
theorem C10_update_balance_unknown_user_witness :
    update_balance (⟨[(2, 5)], [], 1⟩ : DB) 1 3 = (true, (⟨[(2, 5)], [], 1⟩ : DB)) :=
  C10_update_balance_unknown_user _ 1 3 (by decide) (by norm_num)

end FlexiPay




